import Mathlib

/-!
Shallow embedding of the collective-tree-exploration visualizer
(`src/script.js` and the extended revision with export support).

The script keeps four globals: the loaded `result` (a parsed JSON trace),
the integer `currentStep`, and the boolean `isDisplayRobotLabels`.
`makeDot` turns one step of the trace into a DOT graph description;
`next` / `prev` move the step cursor; `run` installs a freshly parsed
trace; `downloadAllSVG` renders every step and zips the SVGs.
-/

namespace CTE

/-- The `tree` field of the parsed result: `n` nodes and a list of edges. -/
structure TreeData where
  n : Nat
  edges : List (Nat × Nat)
deriving DecidableEq

/-- One entry of `result.steps`: per-node robot-id lists (`robotsInNode`),
per-node case numbers (`nodeCase`, the values 1/2/3 used by the color table),
and per-node `traversed` flags. -/
structure StepData where
  robotsInNode : List (List Nat)
  nodeCase : List Nat
  traversed : List Bool
deriving DecidableEq

/-- The whole parsed result: `\x7b tree, steps \x7d`. -/
structure ExplorationResult where
  tree : TreeData
  steps : List StepData
deriving DecidableEq

/-- Default step used to totalize out-of-range step indexing
(JS would yield `undefined`; no claim exercises this branch). -/
def emptyStep : StepData := ⟨[], [], []⟩

/-- The object literal `\x7b1: "green", 2: "red", 3: "blue"\x7d[c]` from
`makeDot`; a key outside 1..3 yields `undefined`, which the JS template
literal would interpolate as the text "undefined". -/
def caseColor (c : Nat) : String :=
  if c = 1 then "green" else if c = 2 then "red" else if c = 3 then "blue"
  else "undefined"

/-- The per-node statement produced by the arrow function inside
`makeDot`'s `Array(result.tree.n).fill(0).map((_, node) => ...)`:
a fixed template with four interpolation holes (node id, occupancy label,
color expression, style expression), transcribed hole by hole. -/
def nodeStmt (r : ExplorationResult) (m : Bool) (step v : Nat) : String :=
  toString v ++ " [\n                  label=\"" ++ toString v ++ "\nrobots: "
  ++ (if m then
        "\x7b" ++ String.intercalate ","
          (((r.steps.getD step emptyStep).robotsInNode.getD v []).map toString)
        ++ "\x7d"
      else toString ((r.steps.getD step emptyStep).robotsInNode.getD v []).length)
  ++ "\",\n                  fontsize=10,\n                  color=\""
  ++ (if (r.steps.getD step emptyStep).traversed.getD v false then
        caseColor ((r.steps.getD step emptyStep).nodeCase.getD v 0)
      else "black")
  ++ "\",\n                  style=\""
  ++ (if (r.steps.getD step emptyStep).traversed.getD v false then "solid"
      else "dashed")
  ++ "\"\n                ];"

/-- The node-statement list: `Array(result.tree.n).fill(0).map(...)`. -/
def nodeStmtList (r : ExplorationResult) (m : Bool) (step : Nat) : List String :=
  (List.range r.tree.n).map (nodeStmt r m step)

/-- One edge statement: `(node) => node[0] ++ " -- " ++ node[1] ++ ";"`. -/
def edgeStmt (e : Nat × Nat) : String :=
  toString e.1 ++ " -- " ++ toString e.2 ++ ";"

/-- The edge-statement list: `result.tree.edges.map(...)`; it takes no step
and no display mode, matching the source. -/
def edgeStmtList (r : ExplorationResult) : List String :=
  r.tree.edges.map edgeStmt

/-- `makeDot(step)`: the full DOT description, with the script's globals
`result` and `isDisplayRobotLabels` made explicit parameters. -/
def makeDot (r : ExplorationResult) (m : Bool) (step : Nat) : String :=
  "graph \x7b\n          graph []\n          node [shape=circle];\n          "
  ++ String.intercalate "\n" (nodeStmtList r m step)
  ++ "\n          "
  ++ String.intercalate "\n" (edgeStmtList r)
  ++ "\n        \x7d"

/-- The two boundary alerts raised by `next` and `prev`. -/
inductive Notice where
  | atStart
  | atEnd
deriving DecidableEq

/-- What a navigation call does besides (possibly) moving the cursor:
nothing at all, a re-render of the tree, or a boundary alert. -/
inductive NavEffect where
  | nothing
  | render
  | notice (n : Notice)
deriving DecidableEq

/-- The script's mutable globals relevant to navigation and loading:
`result` (absent until a run finishes), `currentStep`, and
`isDisplayRobotLabels`. -/
structure SessionState where
  result : Option ExplorationResult
  currentStep : Nat
  isDisplayRobotLabels : Bool
deriving DecidableEq

/-- `next()`: returns unchanged when no result is loaded; advances and
re-renders when `currentStep < result.steps.length - 1`; otherwise alerts
"Exploration is finished!". -/
def next (st : SessionState) : SessionState × NavEffect :=
  match st.result with
  | none => (st, NavEffect.nothing)
  | some r =>
    if st.currentStep < r.steps.length - 1 then
      ({ st with currentStep := st.currentStep + 1 }, NavEffect.render)
    else
      (st, NavEffect.notice Notice.atEnd)

/-- `prev()`: returns unchanged when no result is loaded; retreats and
re-renders when `currentStep > 0`; otherwise alerts
"This is the first step!". -/
def prev (st : SessionState) : SessionState × NavEffect :=
  match st.result with
  | none => (st, NavEffect.nothing)
  | some _ =>
    if st.currentStep > 0 then
      ({ st with currentStep := st.currentStep - 1 }, NavEffect.render)
    else
      (st, NavEffect.notice Notice.atStart)

/-- The state change performed by `run()` once the engine response has been
JSON-parsed: `result = payload; currentStep = 0`. The source performs no
validation of the payload whatsoever. -/
def runLoad (st : SessionState) (payload : ExplorationResult) : SessionState :=
  { st with result := some payload, currentStep := 0 }

/-- The globals before any run: `result` undefined, display flag false. -/
def initialSession : SessionState := ⟨none, 0, false⟩

/-- The file name used by `downloadAllSVG`: `step-(index+1).svg`. -/
def fileName (i : Nat) : String := "step-" ++ toString i ++ ".svg"

/-- `Promise.all` over one render per step index: each completion event
(arriving in the arbitrary order `order`) stores its value at its own
index in the results array, so the array is keyed by index, not by
completion time. -/
def promiseAll {α : Type} (len : Nat) (f : Nat → α) (order : List Nat)
    (d : α) : List α :=
  order.foldl (fun acc i => acc.set i (f i)) (List.replicate len d)

/-- `downloadAllSVG` (success path): render every step concurrently
(completion order `order`), then `forEach` the results into files named
`step-(index+1).svg`. `render` abstracts `viz.renderSVGElement` plus
serialization; `d` is the placeholder for a not-yet-completed slot. -/
def downloadAllSVG {α : Type} (r : ExplorationResult) (m : Bool)
    (render : String → α) (order : List Nat) (d : α) : List (String × α) :=
  ((promiseAll r.steps.length (fun i => render (makeDot r m i)) order d).enum).map
    (fun p => (fileName (p.1 + 1), p.2))

/-- Fail-fast collection of fallible renders, one per DOT description, in
dispatch order: the first failure rejects the whole `Promise.all` and no
later result is kept. -/
def renderList {ε α : Type} (render : String → Except ε α) :
    List String → Except ε (List α)
  | [] => Except.ok []
  | d :: ds =>
    match render d with
    | Except.error e => Except.error e
    | Except.ok a =>
      match renderList render ds with
      | Except.error e => Except.error e
      | Except.ok as => Except.ok (a :: as)

/-- `downloadAllSVG` with fallible renders: if every render succeeds the
files are zipped exactly as in `downloadAllSVG`; if any render fails the
rejection propagates (the engine's own error value) and
`zip.generateAsync` is never reached, so no archive is produced. -/
def downloadAllSVGE {ε α : Type} (r : ExplorationResult) (m : Bool)
    (render : String → Except ε α) : Except ε (List (String × α)) :=
  match renderList render ((List.range r.steps.length).map (makeDot r m)) with
  | Except.error e => Except.error e
  | Except.ok svgs => Except.ok (svgs.enum.map (fun p => (fileName (p.1 + 1), p.2)))

/-! ### Analysis-side decompositions and spec-side predicates -/

/-- The label text of a node statement: the node id, a newline, and the
occupancy info (explicit id set or count, by display mode). -/
def nodeLabel (m : Bool) (st : StepData) (v : Nat) : String :=
  toString v ++ "\nrobots: "
  ++ (if m then
        "\x7b" ++ String.intercalate "," ((st.robotsInNode.getD v []).map toString)
        ++ "\x7d"
      else toString (st.robotsInNode.getD v []).length)

/-- The color chosen for a node: the case table when traversed, black when
not. -/
def nodeColor (st : StepData) (v : Nat) : String :=
  if st.traversed.getD v false then caseColor (st.nodeCase.getD v 0)
  else "black"

/-- The border style chosen for a node: solid when traversed, dashed when
not. -/
def nodeStyle (st : StepData) (v : Nat) : String :=
  if st.traversed.getD v false then "solid" else "dashed"

/-- A node statement as a function of its four slots. -/
def nodeStmtTpl (v : Nat) (label color style : String) : String :=
  toString v ++ " [\n                  label=\"" ++ label
  ++ "\",\n                  fontsize=10,\n                  color=\"" ++ color
  ++ "\",\n                  style=\"" ++ style
  ++ "\"\n                ];"

/-- The whole DOT description as a function of the label texts only: the
colors, styles and topology are computed from the trace and step, with no
display-mode input anywhere. -/
def dotWithLabels (r : ExplorationResult) (step : Nat) (lbl : Nat → String) :
    String :=
  "graph \x7b\n          graph []\n          node [shape=circle];\n          "
  ++ String.intercalate "\n"
      ((List.range r.tree.n).map (fun v =>
        nodeStmtTpl v (lbl v) (nodeColor (r.steps.getD step emptyStep) v)
          (nodeStyle (r.steps.getD step emptyStep) v)))
  ++ "\n          "
  ++ String.intercalate "\n" (edgeStmtList r)
  ++ "\n        \x7d"

/-- The canonical trace schema, from the spec: `steps` non-empty, every
per-node array of every step of length `tree.n`, every edge endpoint in
range. -/
def conformsSchema (r : ExplorationResult) : Prop :=
  r.steps ≠ [] ∧
  (∀ s ∈ r.steps, s.robotsInNode.length = r.tree.n ∧
    s.nodeCase.length = r.tree.n ∧ s.traversed.length = r.tree.n) ∧
  (∀ e ∈ r.tree.edges, e.1 < r.tree.n ∧ e.2 < r.tree.n)

/-! ### Helper lemmas -/

/-- Every node statement is the template filled with that node's label,
color and style; the color and style slots do not depend on the display
mode. -/
theorem nodeStmt_eq_tpl (r : ExplorationResult) (m : Bool) (step v : Nat) :
    nodeStmt r m step v =
      nodeStmtTpl v (nodeLabel m (r.steps.getD step emptyStep) v)
        (nodeColor (r.steps.getD step emptyStep) v)
        (nodeStyle (r.steps.getD step emptyStep) v) := by
  simp only [nodeStmt, nodeStmtTpl, nodeLabel, nodeColor, nodeStyle,
    String.append_assoc]

/-! ### Concrete fixtures (one family per claim) -/

/-- A payload violating the canonical schema: `steps` is empty. -/
def badPayload : ExplorationResult := ⟨⟨3, [(0, 1), (1, 2)]⟩, []⟩

/-- Fixture for the color/style claim: node 0 traversed, node 1 not. -/
def trC2 : ExplorationResult :=
  ⟨⟨2, [(0, 1)]⟩, [⟨[[1], [2]], [3, 1], [true, false]⟩]⟩

/-- Fixture for the boundary claim: a single-step trace. -/
def trC3 : ExplorationResult := ⟨⟨1, []⟩, [⟨[[0]], [1], [true]⟩]⟩

/-- Session at the unique step of `trC3`. -/
def stC3 : SessionState := ⟨some trC3, 0, false⟩

/-- Fixture for the determinism claim. -/
def trC7 : ExplorationResult := ⟨⟨2, [(0, 1)]⟩, [⟨[[], []], [1, 2], [true, true]⟩]⟩

/-- Fixture for the round-trip claim: a two-step trace. -/
def trC9 : ExplorationResult :=
  ⟨⟨1, []⟩, [⟨[[0]], [1], [true]⟩, ⟨[[0]], [2], [true]⟩]⟩

/-- Session at step 0 of `trC9`. -/
def stC9 : SessionState := ⟨some trC9, 0, false⟩

/-- Session before any run completed: `result` is undefined. -/
def stC10 : SessionState := ⟨none, 5, true⟩

/-! ### Claims -/

/-- Claim C1, counterexample: `badPayload` has empty `steps`, so it does not
conform to the canonical schema, yet `run` installs it as the session's
result with the cursor reset — loading does not fail, no
`MalformedTraceError` exists, and session state is created. -/
theorem c1_counterexample :
    ¬ conformsSchema badPayload ∧
    runLoad initialSession badPayload = ⟨some badPayload, 0, false⟩ :=
  ⟨fun h => h.1 rfl, rfl⟩

/-- Claim C1, amended: the source performs no schema validation at all —
for every payload, conforming or not (here: any non-conforming one),
`run` stores the parsed payload as the current result and resets the
cursor to 0; it never fails. -/
theorem c1_load_never_fails (st : SessionState) (p : ExplorationResult)
    (_h : ¬ conformsSchema p) :
    (runLoad st p).result = some p ∧ (runLoad st p).currentStep = 0 :=
  ⟨rfl, rfl⟩

/-- Witness for C1's amended theorem at the empty-steps payload. -/
theorem c1_load_never_fails_witness :
    ¬ conformsSchema badPayload ∧
    ((runLoad initialSession badPayload).result = some badPayload ∧
      (runLoad initialSession badPayload).currentStep = 0) :=
  ⟨fun h => h.1 rfl,
    c1_load_never_fails initialSession badPayload (fun h => h.1 rfl)⟩

/-- Claim C2: a traversed node's statement carries the color obtained from
the fixed three-way case table and a solid border; an untraversed node's
statement carries the default color black and a dashed border, whatever
its case value. -/
theorem c2_node_color_style (r : ExplorationResult) (m : Bool) (step v : Nat) :
    ((r.steps.getD step emptyStep).traversed.getD v false = true →
      nodeStmt r m step v =
        nodeStmtTpl v (nodeLabel m (r.steps.getD step emptyStep) v)
          (caseColor ((r.steps.getD step emptyStep).nodeCase.getD v 0))
          "solid") ∧
    ((r.steps.getD step emptyStep).traversed.getD v false = false →
      nodeStmt r m step v =
        nodeStmtTpl v (nodeLabel m (r.steps.getD step emptyStep) v)
          "black" "dashed") := by
  constructor <;> intro h <;>
    simp only [nodeStmt_eq_tpl, nodeColor, nodeStyle, h] <;> simp

/-- Witness for C2 at `trC2`: node 0 (traversed, case 3) and node 1
(untraversed). -/
theorem c2_node_color_style_witness :
    ((trC2.steps.getD 0 emptyStep).traversed.getD 0 false = true ∧
      nodeStmt trC2 false 0 0 =
        nodeStmtTpl 0 (nodeLabel false (trC2.steps.getD 0 emptyStep) 0)
          (caseColor ((trC2.steps.getD 0 emptyStep).nodeCase.getD 0 0))
          "solid") ∧
    ((trC2.steps.getD 0 emptyStep).traversed.getD 1 false = false ∧
      nodeStmt trC2 false 0 1 =
        nodeStmtTpl 1 (nodeLabel false (trC2.steps.getD 0 emptyStep) 1)
          "black" "dashed") :=
  ⟨⟨rfl, (c2_node_color_style trC2 false 0 0).1 rfl⟩,
    ⟨rfl, (c2_node_color_style trC2 false 0 1).2 rfl⟩⟩

/-- Claim C3: with a trace loaded, `prev` at index 0 leaves the session
unchanged and raises the at-start notice, and `next` at the last index
leaves the session unchanged and raises the at-end notice; neither fails. -/
theorem c3_boundary (st : SessionState) (r : ExplorationResult)
    (h : st.result = some r) :
    (st.currentStep = 0 →
      prev st = (st, NavEffect.notice Notice.atStart)) ∧
    (st.currentStep = r.steps.length - 1 →
      next st = (st, NavEffect.notice Notice.atEnd)) := by
  constructor <;> intro hc
  · simp [prev, h, hc]
  · simp [next, h, hc]

/-- Witness for C3 on the single-step trace `trC3`, where index 0 is both
the first and the last step. -/
theorem c3_boundary_witness :
    stC3.result = some trC3 ∧ stC3.currentStep = 0 ∧
    prev stC3 = (stC3, NavEffect.notice Notice.atStart) ∧
    stC3.currentStep = trC3.steps.length - 1 ∧
    next stC3 = (stC3, NavEffect.notice Notice.atEnd) :=
  ⟨rfl, rfl, (c3_boundary stC3 trC3 rfl).1 rfl, rfl,
    (c3_boundary stC3 trC3 rfl).2 rfl⟩

/-- Claim C6: the description holds exactly `tree.n` node statements and
exactly one edge statement per tree edge, the latter independent of the
step and display mode by construction. -/
theorem c6_statement_counts (r : ExplorationResult) (m : Bool) (step : Nat) :
    (nodeStmtList r m step).length = r.tree.n ∧
    (edgeStmtList r).length = r.tree.edges.length ∧
    ∀ i : Nat, (edgeStmtList r)[i]? = (r.tree.edges[i]?).map edgeStmt := by
  refine ⟨?_, ?_, fun i => ?_⟩ <;> simp [nodeStmtList, edgeStmtList]

/-- Claim C7: the description builder is deterministic — identical trace,
display mode and step index give identical output. -/
theorem c7_deterministic (r₁ r₂ : ExplorationResult) (m₁ m₂ : Bool)
    (s₁ s₂ : Nat) (h₁ : r₁ = r₂) (h₂ : m₁ = m₂) (h₃ : s₁ = s₂) :
    makeDot r₁ m₁ s₁ = makeDot r₂ m₂ s₂ := by
  rw [h₁, h₂, h₃]

/-- Witness for C7 at `trC7`. -/
theorem c7_deterministic_witness :
    trC7 = trC7 ∧ false = false ∧ 0 = 0 ∧
    makeDot trC7 false 0 = makeDot trC7 false 0 :=
  ⟨rfl, rfl, rfl, c7_deterministic trC7 trC7 false false 0 0 rfl rfl rfl⟩

/-- Claim C8: for a fixed trace and step, the display mode enters the
description only through the label texts — `makeDot` equals the
mode-free assembly `dotWithLabels` (fixed colors, styles and topology)
applied to the mode's labels. -/
theorem c8_mode_changes_only_labels (r : ExplorationResult) (step : Nat)
    (m : Bool) :
    makeDot r m step =
      dotWithLabels r step (nodeLabel m (r.steps.getD step emptyStep)) := by
  have h : (List.range r.tree.n).map (nodeStmt r m step) =
      (List.range r.tree.n).map (fun v =>
        nodeStmtTpl v (nodeLabel m (r.steps.getD step emptyStep) v)
          (nodeColor (r.steps.getD step emptyStep) v)
          (nodeStyle (r.steps.getD step emptyStep) v)) :=
    List.map_congr_left (fun v _ => nodeStmt_eq_tpl r m step v)
  rw [makeDot, dotWithLabels, nodeStmtList, h]

/-- Claim C9: from any index strictly below the last, `next` followed by
`prev` restores the session state exactly. -/
theorem c9_roundtrip (st : SessionState) (r : ExplorationResult)
    (h : st.result = some r) (hlt : st.currentStep < r.steps.length - 1) :
    (prev (next st).1).1 = st := by
  obtain ⟨res, cur, mode⟩ := st
  simp only at h
  subst h
  simp [next, prev, hlt]

/-- Witness for C9 at step 0 of the two-step trace `trC9`. -/
theorem c9_roundtrip_witness :
    stC9.result = some trC9 ∧ stC9.currentStep < trC9.steps.length - 1 ∧
    (prev (next stC9).1).1 = stC9 :=
  ⟨rfl, by decide, c9_roundtrip stC9 trC9 rfl (by decide)⟩

/-- Folding completion events over the result array keeps its length. -/
theorem foldl_set_length {α : Type} (f : Nat → α) :
    ∀ (order : List Nat) (acc : List α),
      (order.foldl (fun a i => a.set i (f i)) acc).length = acc.length := by
  intro order
  induction order with
  | nil => intro acc; rfl
  | cons x xs ih => intro acc; rw [List.foldl_cons, ih, List.length_set]

/-- After folding completion events, a slot holds its own render value if
its index completed (in whatever order), and is untouched otherwise. -/
theorem foldl_set_getElem? {α : Type} (f : Nat → α) :
    ∀ (order : List Nat) (acc : List α) (j : Nat),
      (order.foldl (fun a i => a.set i (f i)) acc)[j]? =
        if j ∈ order ∧ j < acc.length then some (f j) else acc[j]? := by
  intro order
  induction order with
  | nil => intro acc j; simp
  | cons x xs ih =>
    intro acc j
    rw [List.foldl_cons, ih, List.length_set]
    by_cases hj : j < acc.length
    · by_cases hmem : j ∈ xs
      · simp [hmem, hj, List.mem_cons]
      · by_cases hx : j = x
        · subst hx
          simp [hmem, hj, List.mem_cons, List.getElem?_set_self hj]
        · simp [hmem, hj, hx, List.mem_cons,
            List.getElem?_set_ne (fun he => hx he.symm)]
    · have h1 : (acc.set x (f x))[j]? = none :=
        List.getElem?_eq_none (by simpa using Nat.le_of_not_lt hj)
      have h2 : acc[j]? = none := List.getElem?_eq_none (Nat.le_of_not_lt hj)
      simp [hj, h1, h2]

/-- `Promise.all` semantics: whenever every index completes exactly once
(any permutation of the dispatch order), the results array equals the
in-order render of every index. -/
theorem promiseAll_eq_map {α : Type} (len : Nat) (f : Nat → α)
    (order : List Nat) (d : α) (h : order.Perm (List.range len)) :
    promiseAll len f order d = (List.range len).map f := by
  apply List.ext_getElem?
  intro j
  rw [promiseAll, foldl_set_getElem? f order (List.replicate len d) j]
  have hmem : j ∈ order ↔ j < len := by rw [h.mem_iff, List.mem_range]
  by_cases hj : j < len
  · simp [hmem, hj, List.getElem?_range hj]
  · have h1 : (List.replicate len d)[j]? = none :=
      List.getElem?_eq_none (by simpa using Nat.le_of_not_lt hj)
    have h2 : (List.range len)[j]? = none :=
      List.getElem?_eq_none (by simpa using Nat.le_of_not_lt hj)
    simp [hmem, hj, h1, h2]

/-- Claim C4: for every completion order of the concurrent renders,
`downloadAllSVG` yields exactly one file per step, and the i-th is named
`step-(i+1).svg` and holds the render of step i. -/
theorem c4_export_files {α : Type} (r : ExplorationResult) (m : Bool)
    (render : String → α) (order : List Nat) (d : α)
    (h : order.Perm (List.range r.steps.length)) :
    (downloadAllSVG r m render order d).length = r.steps.length ∧
    ∀ i : Nat, i < r.steps.length →
      (downloadAllSVG r m render order d)[i]? =
        some (fileName (i + 1), render (makeDot r m i)) := by
  have hp := promiseAll_eq_map r.steps.length
    (fun i => render (makeDot r m i)) order d h
  constructor
  · simp [downloadAllSVG, hp, List.enum_eq_enumFrom]
  · intro i hi
    simp [downloadAllSVG, hp, List.enum_eq_enumFrom, List.getElem?_enumFrom,
      List.getElem?_range hi]

/-- Fixture for the export-order claim: a two-step trace. -/
def trC4 : ExplorationResult :=
  ⟨⟨1, []⟩, [⟨[[0]], [1], [true]⟩, ⟨[[0]], [3], [true]⟩]⟩

/-- Witness for C4 with the two renders completing in reversed order. -/
theorem c4_export_files_witness :
    ([1, 0] : List Nat).Perm (List.range trC4.steps.length) ∧
    ((downloadAllSVG trC4 false String.length [1, 0] 0).length =
        trC4.steps.length ∧
      ∀ i : Nat, i < trC4.steps.length →
        (downloadAllSVG trC4 false String.length [1, 0] 0)[i]? =
          some (fileName (i + 1), String.length (makeDot trC4 false i))) :=
  ⟨by decide, c4_export_files trC4 false String.length [1, 0] 0 (by decide)⟩

/-- Fail-fast: if any dispatched render rejects, the whole collection
rejects with some engine error. -/
theorem renderList_error_of_mem {ε α : Type} (render : String → Except ε α) :
    ∀ (l : List String), (∃ d ∈ l, ∃ e, render d = Except.error e) →
      ∃ e, renderList render l = Except.error e := by
  intro l
  induction l with
  | nil => rintro ⟨d, hd, _⟩; cases hd
  | cons x xs ih =>
    rintro ⟨d, hd, e, he⟩
    cases hx : render x with
    | error e0 => exact ⟨e0, by simp [renderList, hx]⟩
    | ok a =>
      have hdx : d ∈ xs := by
        rcases List.mem_cons.mp hd with h1 | h1
        · subst h1; rw [hx] at he; cases he
        · exact h1
      obtain ⟨e1, he1⟩ := ih ⟨d, hdx, e, he⟩
      exact ⟨e1, by simp [renderList, hx, he1]⟩

/-- Fixture for the fail-fast claim: two steps with distinct descriptions
(step 0 traversed, step 1 not). -/
def cexTrace : ExplorationResult :=
  ⟨⟨1, []⟩, [⟨[[]], [1], [true]⟩, ⟨[[]], [1], [false]⟩]⟩

/-- A render that fails exactly on step 0's description, with a fixed
engine error carrying no index information. -/
def renderFailA : String → Except String String := fun s =>
  if s = makeDot cexTrace false 0 then Except.error "engine failure"
  else Except.ok s

/-- A render that fails exactly on step 1's description, with the same
engine error. -/
def renderFailB : String → Except String String := fun s =>
  if s = makeDot cexTrace false 1 then Except.error "engine failure"
  else Except.ok s

set_option maxRecDepth 100000

/-- Claim C5, counterexample: `renderFailA` fails exactly at step 0 and
`renderFailB` exactly at step 1, yet the two exports produce the very
same outcome — so the outcome cannot report the failing step's index. -/
theorem c5_counterexample :
    renderFailA (makeDot cexTrace false 0) = Except.error "engine failure" ∧
    renderFailB (makeDot cexTrace false 0) = Except.ok (makeDot cexTrace false 0) ∧
    renderFailA (makeDot cexTrace false 1) = Except.ok (makeDot cexTrace false 1) ∧
    renderFailB (makeDot cexTrace false 1) = Except.error "engine failure" ∧
    downloadAllSVGE cexTrace false renderFailA =
      downloadAllSVGE cexTrace false renderFailB := by
  refine ⟨rfl, ?_, ?_, rfl, rfl⟩ <;> rfl

/-- Claim C5, amended: if any step's render fails, the whole export is
aborted with the engine's own error and no archive — not even a partial
one — is produced; the failing step's index is not part of the outcome. -/
theorem c5_abort_no_archive {ε α : Type} (r : ExplorationResult) (m : Bool)
    (render : String → Except ε α)
    (h : ∃ i, i < r.steps.length ∧
      ∃ e, render (makeDot r m i) = Except.error e) :
    ∃ e, downloadAllSVGE r m render = Except.error e := by
  obtain ⟨i, hi, e, he⟩ := h
  have hmem : makeDot r m i ∈ (List.range r.steps.length).map (makeDot r m) :=
    List.mem_map.mpr ⟨i, List.mem_range.mpr hi, rfl⟩
  obtain ⟨e1, he1⟩ :=
    renderList_error_of_mem render _ ⟨makeDot r m i, hmem, e, he⟩
  exact ⟨e1, by simp [downloadAllSVGE, he1]⟩

/-- Witness for C5's amended theorem with the render failing at step 0. -/
theorem c5_abort_no_archive_witness :
    (∃ i, i < cexTrace.steps.length ∧
      ∃ e, renderFailA (makeDot cexTrace false i) = Except.error e) ∧
    (∃ e, downloadAllSVGE cexTrace false renderFailA = Except.error e) :=
  ⟨⟨0, by decide, "engine failure", rfl⟩,
    c5_abort_no_archive cexTrace false renderFailA
      ⟨0, by decide, "engine failure", rfl⟩⟩

/-- Claim C10: before any run result exists, `next` and `prev` return with
the session untouched and no render and no notice. -/
theorem c10_noop_without_result (st : SessionState) (h : st.result = none) :
    next st = (st, NavEffect.nothing) ∧ prev st = (st, NavEffect.nothing) := by
  constructor <;> simp [next, prev, h]

/-- Witness for C10 at a session with no result loaded. -/
theorem c10_noop_without_result_witness :
    stC10.result = none ∧
    next stC10 = (stC10, NavEffect.nothing) ∧
    prev stC10 = (stC10, NavEffect.nothing) :=
  ⟨rfl, (c10_noop_without_result stC10 rfl).1,
    (c10_noop_without_result stC10 rfl).2⟩

end CTE
